import Mathlib

/-
Verification development for the gpt5-search-mcp server core (src/index.ts).

The embedded components are the ones the specification's claims are about:
  - a JavaScript runtime-value model (`JsVal`) with the property-access,
    truthiness and string-conversion semantics the program relies on;
  - the response text extractor `extractResponseText` (line 184), both on
    zod-validated data and on raw values (the best-effort fallback path),
    where raw property access can throw a TypeError (modelled as `Except`);
  - the zod response schema (`GPT5OutputContent` .. `GPT5Response`,
    lines 12-60) as boolean validators;
  - the error classifier inside the remote-call wrapper (lines 233-256);
  - the retry policy `withRetry` (lines 85-110), modelled over an explicit
    list of successive call outcomes, returning the propagated result
    together with the list of backoff delays actually waited;
  - the terminal failure renderer of the tool handler's catch block
    (lines 287-325).
-/

/-- Shallow model of a JavaScript runtime value (JSON-like). `null` also
stands for JS `undefined`: both throw on property access, both are falsy,
both compare unequal (with ===) to every string, and zod rejects both for
required fields — which is everything this program observes about them. -/
inductive JsVal where
  | null : JsVal
  | bool : Bool → JsVal
  | num : Int → JsVal
  | str : String → JsVal
  | arr : List JsVal → JsVal
  | obj : List (String × JsVal) → JsVal

/-- JS property access `v.k`: throws a TypeError on null/undefined, returns
the field on objects (undefined when the key is missing), and undefined on
the remaining primitives and on arrays (for the keys this program reads). -/
def jsGet (v : JsVal) (k : String) : Except Unit JsVal :=
  match v with
  | .null => .error ()
  | .obj kvs => .ok ((kvs.lookup k).getD .null)
  | _ => .ok .null

/-- Total property access used for optional chaining `v?.k` (undefined on
null/undefined instead of throwing) and in specification-side statements. -/
def jsGetD (v : JsVal) (k : String) : JsVal :=
  match v with
  | .obj kvs => (kvs.lookup k).getD .null
  | _ => .null

/-- JS truthiness of a value. -/
def jsTruthy (v : JsVal) : Bool :=
  match v with
  | .null => false
  | .bool b => b
  | .num n => n ≠ 0
  | .str s => s ≠ ""
  | .arr _ => true
  | .obj _ => true

/-- JS `a || b` on values: `a` when truthy, otherwise `b`. -/
def jsOr (a b : JsVal) : JsVal :=
  if jsTruthy a then a else b

/-- JS strict equality `v === s` against a string literal. -/
def jsIsStr (v : JsVal) (s : String) : Bool :=
  match v with
  | .str t => t = s
  | _ => false

mutual
/-- Element conversion used by `Array.prototype.join`: null/undefined become
the empty string, other values are converted with `String(·)` (numbers are
modelled as integers, so their decimal rendering is `toString`). -/
def jsToString : JsVal → String
  | .null => ""
  | .bool b => if b then "true" else "false"
  | .num n => toString n
  | .str s => s
  | .arr l => jsToStringList l
  | .obj _ => "[object Object]"

/-- `Array.prototype.toString` = `join(",")` with the conversion above. -/
def jsToStringList : List JsVal → String
  | [] => ""
  | [v] => jsToString v
  | v :: l => jsToString v ++ "," ++ jsToStringList l
end

/-- `Array.prototype.join(sep)`: empty string on the empty array, otherwise
the elements interleaved with the separator. -/
def joinSep (sep : String) : List String → String
  | [] => ""
  | [t] => t
  | t :: ts => t ++ sep ++ joinSep sep ts

/-- The stage `output.filter(item => item.type === t)` of the raw extractor:
evaluates the predicate left to right, so it throws at the first element on
which `.type` access throws (a null/undefined element). -/
def jsFilterType (t : String) : List JsVal → Except Unit (List JsVal)
  | [] => .ok []
  | v :: vs =>
    match jsGet v "type" with
    | .error e => .error e
    | .ok ty =>
      match jsFilterType t vs with
      | .error e => .error e
      | .ok rest => .ok (if jsIsStr ty t then v :: rest else rest)

/-- The stage `messageOutputs.flatMap(msg => msg.content)`: an array value is
spliced in (one level of flattening), any other value — including the
undefined produced by a missing `content` field — is kept as one element. -/
def jsFlatContents : List JsVal → Except Unit (List JsVal)
  | [] => .ok []
  | m :: ms =>
    match jsGet m "content" with
    | .error e => .error e
    | .ok c =>
      match jsFlatContents ms with
      | .error e => .error e
      | .ok rest =>
        match c with
        | .arr l => .ok (l ++ rest)
        | other => .ok (other :: rest)

/-- The stage `.map(content => content.text)`. -/
def jsMapText : List JsVal → Except Unit (List JsVal)
  | [] => .ok []
  | c :: cs =>
    match jsGet c "text" with
    | .error e => .error e
    | .ok t =>
      match jsMapText cs with
      | .error e => .error e
      | .ok rest => .ok (t :: rest)

/-- `extractResponseText` (src/index.ts line 184) applied to a raw value on
the best-effort fallback path (line 265, `response.output as any[]`).
A thrown TypeError is `Except.error ()`; it is caught by the tool handler's
outer catch block, not by this function. -/
def extractResponseTextRaw (output : List JsVal) : Except Unit String :=
  match jsFilterType "message" output with
  | .error e => .error e
  | .ok messageOutputs =>
    if messageOutputs.length = 0 then
      .ok "No response text available."
    else
      match jsFlatContents messageOutputs with
      | .error e => .error e
      | .ok contents =>
        match jsFilterType "output_text" contents with
        | .error e => .error e
        | .ok textItems =>
          match jsMapText textItems with
          | .error e => .error e
          | .ok texts =>
            let joined := joinSep "\n\n" (texts.map jsToString)
            .ok (if joined = "" then "No response text available." else joined)

/-- A zod-validated content item of a `message` output. The schema constrains
`type` to the literal "output_text"; the field is carried because the
extractor still tests it. The optional `annotations` and `logprobs` arrays
are opaque to the program and omitted from the parsed model. -/
structure GPT5OutputContentData where
  type : String
  text : String

/-- A zod-validated output item (the parsed form of the `GPT5Output` union):
`message` (line 19), `reasoning` (line 27) or `web_search_call` (line 33). -/
inductive GPT5OutputData where
  | message (id : String) (status : String) (content : List GPT5OutputContentData)
      (role : String)
  | reasoning (id : String) (summary : List JsVal)
  | webSearchCall (id : String) (status : String)

/-- The discriminant test `item.type === 'message'` on parsed data. -/
def GPT5OutputData.isMessage : GPT5OutputData → Bool
  | .message _ _ _ _ => true
  | _ => false

/-- `msg.content` on parsed data (only ever applied to `message` items). -/
def GPT5OutputData.contentOf : GPT5OutputData → List GPT5OutputContentData
  | .message _ _ c _ => c
  | _ => []

/-- `extractResponseText` (src/index.ts lines 184-201) on zod-validated
output items: filter to `message` items; if none, the sentinel; otherwise
flatten the content items, keep the `output_text` ones, join their text
fields with a blank line, and fall back to the sentinel on an empty join. -/
def extractResponseText (output : List GPT5OutputData) : String :=
  let messageOutputs := output.filter GPT5OutputData.isMessage
  if messageOutputs.length = 0 then
    "No response text available."
  else
    let texts :=
      ((messageOutputs.flatMap GPT5OutputData.contentOf).filter
        (fun c => c.type = "output_text")).map (fun c => c.text)
    let joined := joinSep "\n\n" texts
    if joined = "" then "No response text available." else joined

/-- Encoding of a parsed content item back into the raw value it was parsed
from (zod strips no key this program reads). -/
def encodeContent (c : GPT5OutputContentData) : JsVal :=
  .obj [("type", .str c.type), ("text", .str c.text)]

/-- Encoding of a parsed output item back into a raw value. -/
def encodeOutput : GPT5OutputData → JsVal
  | .message id status content role =>
    .obj [("id", .str id), ("type", .str "message"), ("status", .str status),
      ("content", .arr (content.map encodeContent)), ("role", .str role)]
  | .reasoning id summary =>
    .obj [("id", .str id), ("type", .str "reasoning"), ("summary", .arr summary)]
  | .webSearchCall id status =>
    .obj [("id", .str id), ("type", .str "web_search_call"), ("status", .str status)]

/-- zod: value passes `z.string()`. -/
def isStrVal (v : JsVal) : Bool :=
  match v with
  | .str _ => true
  | _ => false

/-- zod: value passes `z.number()`. -/
def isNumVal (v : JsVal) : Bool :=
  match v with
  | .num _ => true
  | _ => false

/-- zod: an optional `z.array(z.any())` field — valid when absent or an
array (a merged null/undefined value is read as absent, see `JsVal`). -/
def optAnyArray (v : Option JsVal) : Bool :=
  match v with
  | none => true
  | some .null => true
  | some (.arr _) => true
  | some _ => false

/-- The zod schema `GPT5OutputContent` (src/index.ts line 12) as a validator:
an object whose `type` is literally "output_text", whose `text` is a string,
with optional `annotations` and `logprobs` arrays. -/
def GPT5OutputContent (v : JsVal) : Bool :=
  match v with
  | .obj kvs =>
    jsIsStr ((kvs.lookup "type").getD .null) "output_text" &&
    isStrVal ((kvs.lookup "text").getD .null) &&
    optAnyArray (kvs.lookup "annotations") &&
    optAnyArray (kvs.lookup "logprobs")
  | _ => false

/-- The zod schema `GPT5MessageOutput` (line 19): every content item must
itself pass `GPT5OutputContent` — the content array admits no other kinds. -/
def GPT5MessageOutput (v : JsVal) : Bool :=
  match v with
  | .obj kvs =>
    isStrVal ((kvs.lookup "id").getD .null) &&
    jsIsStr ((kvs.lookup "type").getD .null) "message" &&
    jsIsStr ((kvs.lookup "status").getD .null) "completed" &&
    (match (kvs.lookup "content").getD .null with
     | .arr l => l.all GPT5OutputContent
     | _ => false) &&
    jsIsStr ((kvs.lookup "role").getD .null) "assistant"
  | _ => false

/-- The zod schema `GPT5ReasoningOutput` (line 27). -/
def GPT5ReasoningOutput (v : JsVal) : Bool :=
  match v with
  | .obj kvs =>
    isStrVal ((kvs.lookup "id").getD .null) &&
    jsIsStr ((kvs.lookup "type").getD .null) "reasoning" &&
    (match (kvs.lookup "summary").getD .null with
     | .arr _ => true
     | _ => false)
  | _ => false

/-- The zod schema `GPT5WebSearchOutput` (line 33); `action` is an optional
`z.any()`, hence unconstrained. -/
def GPT5WebSearchOutput (v : JsVal) : Bool :=
  match v with
  | .obj kvs =>
    isStrVal ((kvs.lookup "id").getD .null) &&
    jsIsStr ((kvs.lookup "type").getD .null) "web_search_call" &&
    jsIsStr ((kvs.lookup "status").getD .null) "completed"
  | _ => false

/-- The zod union `GPT5Output` (line 40). -/
def GPT5Output (v : JsVal) : Bool :=
  GPT5MessageOutput v || GPT5ReasoningOutput v || GPT5WebSearchOutput v

/-- The optional `usage` object of `GPT5Response` (line 53). -/
def GPT5Usage (v : Option JsVal) : Bool :=
  match v with
  | none => true
  | some .null => true
  | some (.obj kvs) =>
    isNumVal ((kvs.lookup "input_tokens").getD .null) &&
    isNumVal ((kvs.lookup "output_tokens").getD .null) &&
    isNumVal ((kvs.lookup "total_tokens").getD .null)
  | some _ => false

/-- The zod schema `GPT5Response` (line 46): the top-level response object;
its `output` array must consist of items passing the `GPT5Output` union. -/
def GPT5Response (v : JsVal) : Bool :=
  match v with
  | .obj kvs =>
    isStrVal ((kvs.lookup "id").getD .null) &&
    jsIsStr ((kvs.lookup "object").getD .null) "response" &&
    isNumVal ((kvs.lookup "created_at").getD .null) &&
    jsIsStr ((kvs.lookup "status").getD .null) "completed" &&
    isStrVal ((kvs.lookup "model").getD .null) &&
    (match (kvs.lookup "output").getD .null with
     | .arr l => l.all GPT5Output
     | _ => false) &&
    GPT5Usage (kvs.lookup "usage")
  | _ => false

/-- The `HttpError` class (src/index.ts line 70). `errorType` and `errorCode`
are whatever JS values the classifier extracted (undefined as `.null`);
`retryAfterMs` is `none` when undefined or NaN (an unparseable header) —
both are falsy at every use site. -/
structure HttpErr where
  message : String
  status : Nat
  body : JsVal
  retryAfterMs : Option Nat
  errorType : JsVal
  errorCode : JsVal

/-- The raw failure caught inside the remote-call wrapper (line 233) before
classification: the fields of the thrown value that the classifier reads.
`respData` models `(error as any).response?.data` and `retryAfterHeader`
models `(error as any).response?.headers['retry-after']` (absent = `none`). -/
structure SdkFailure where
  isErrorInstance : Bool
  hasStatusProp : Bool
  status : Option Nat
  respData : JsVal
  errField : JsVal
  topType : JsVal
  topCode : JsVal
  retryAfterHeader : Option String
  message : String

/-- An error propagating out of the wrapped remote call: either the
classifier's `HttpError`, or the original failure rethrown unclassified. -/
inductive CaughtError where
  | http (e : HttpErr)
  | other (f : SdkFailure)

/-- `parseInt` on a header value, returning the leading decimal number and
`none` (NaN) when the string has no leading digits. -/
def parseIntNat (s : String) : Option Nat :=
  go s.data none
where
  go : List Char → Option Nat → Option Nat
    | [], acc => acc
    | c :: cs, acc =>
      if c.isDigit then go cs (some ((acc.getD 0) * 10 + (c.toNat - 48)))
      else acc

/-- The error classifier (src/index.ts lines 233-256): an `Error` instance
with a `status` property becomes an `HttpError` — status defaulted to 500
when absent or 0 (`status || 500`), vendor type/code read from
`body?.error?.type || error.type` (resp. `code`) where
`body = response?.data || error.error`, and the retry-after header parsed
from seconds into milliseconds; any other failure is rethrown unchanged. -/
def classifyFailure (f : SdkFailure) : CaughtError :=
  if f.isErrorInstance && f.hasStatusProp then
    let body := jsOr f.respData f.errField
    .http
      { message := "OpenAI API error: " ++ f.message
        status := match f.status with
          | some s => if s = 0 then 500 else s
          | none => 500
        body := body
        retryAfterMs := match f.retryAfterHeader with
          | some s => if s = "" then none else (parseIntNat s).map (fun n => n * 1000)
          | none => none
        errorType := jsOr (jsGetD (jsGetD body "error") "type") f.topType
        errorCode := jsOr (jsGetD (jsGetD body "error") "code") f.topCode }
  else
    .other f

/-- `e.errorType === 'insufficient_quota' || e.errorCode === 'insufficient_quota'`
(src/index.ts lines 99 and 295). -/
def isQuotaError (e : HttpErr) : Bool :=
  jsIsStr e.errorType "insufficient_quota" || jsIsStr e.errorCode "insufficient_quota"

/-- Retry eligibility (src/index.ts line 100): an `HttpError`, not a quota
error, with status 429 or in [500, 599]. -/
def retriableB (c : CaughtError) : Bool :=
  match c with
  | .http e =>
    !isQuotaError e && (e.status == 429 || (500 ≤ e.status && e.status ≤ 599))
  | .other _ => false

/-- The backoff delay (src/index.ts line 106):
`(isHttp && e.retryAfterMs) || baseDelayMs * 2 ** (attempt - 1)` — the hint
is selected by truthiness, so a missing hint, a non-`HttpError`, and a hint
of 0 ms all fall back to the exponential default. -/
def delayFor (c : CaughtError) (attempt baseDelayMs : Nat) : Nat :=
  match c with
  | .http e =>
    match e.retryAfterMs with
    | some r => if r ≠ 0 then r else baseDelayMs * 2 ^ (attempt - 1)
    | none => baseDelayMs * 2 ^ (attempt - 1)
  | .other _ => baseDelayMs * 2 ^ (attempt - 1)

/-- The loop of `withRetry` (src/index.ts lines 85-110) over an explicit
list of successive call outcomes, carrying the attempt counter. The result
pairs the propagated success or final failure with the list of delays the
engine waited; `none` means the scenario list ran out before the loop
finished (more calls would have been made than outcomes were scripted). -/
def withRetryAux {α : Type} (outcomes : List (Except CaughtError α))
    (attempt retries baseDelayMs : Nat) : Option (Except CaughtError α × List Nat) :=
  match outcomes with
  | [] => none
  | .ok v :: _ => some (.ok v, [])
  | .error e :: rest =>
    if retriableB e = true ∧ attempt + 1 ≤ retries then
      match withRetryAux rest (attempt + 1) retries baseDelayMs with
      | none => none
      | some (res, ds) => some (res, delayFor e (attempt + 1) baseDelayMs :: ds)
    else
      some (.error e, [])

/-- `withRetry` (src/index.ts line 85); the caller at line 229 uses the
default policy retries = 2, baseDelayMs = 300. -/
def withRetry {α : Type} (outcomes : List (Except CaughtError α))
    (retries baseDelayMs : Nat) : Option (Except CaughtError α × List Nat) :=
  withRetryAux outcomes 0 retries baseDelayMs

/-- The terminal failure rendering of the tool handler's catch block
(src/index.ts lines 291-324). `retryAfterMs / 1000` is exact Nat division:
the classifier only ever constructs multiples of 1000. -/
def renderErrorText (c : CaughtError) : String :=
  match c with
  | .http e =>
    if isQuotaError e then
      "Insufficient OpenAI credits. You have exceeded your current quota. Please check your OpenAI plan and billing details at https://platform.openai.com/account/billing"
    else if e.status == 429 then
      "Rate limited. " ++
        (match e.retryAfterMs with
         | some r =>
           if r ≠ 0 then "Please retry after " ++ toString (r / 1000) ++ " seconds."
           else "Please try again later."
         | none => "Please try again later.")
    else if e.status == 401 then
      "Authentication failed. Please check your OPENAI_API_KEY."
    else if 500 ≤ e.status then
      "OpenAI service is temporarily unavailable. Please try again later."
    else
      "Error (" ++ toString e.status ++ "): " ++ e.message
  | .other f =>
    "Error: " ++ (if f.isErrorInstance then f.message else "Unknown error occurred")

/-- The reply shape the tool handler returns: a single text content item.
`isError` models the protocol's error flag on a call result; the handler
never sets it, so every reply it builds carries `isError = false`. -/
structure ToolReply where
  text : String
  isError : Bool

/-- The catch block of the tool handler (src/index.ts lines 287-325): every
terminal failure is turned into a normal reply carrying the rendered
message; no failure is rethrown to the protocol layer. -/
def handleToolFailure (c : CaughtError) : ToolReply :=
  { text := renderErrorText c, isError := false }

/-- Is the value the merged null/undefined? (Boolean form used in
well-formedness side conditions.) -/
def isNullB : JsVal → Bool
  | .null => true
  | _ => false

/-- The content items the raw extractor's flatMap stage produces for one
`message` item: the elements of its `content` array, or the single
non-array value (e.g. undefined) when `content` is not an array. -/
def contentsOfRaw (m : JsVal) : List JsVal :=
  match jsGetD m "content" with
  | .arr l => l
  | c => [c]

/-- The flattened content items of the `message` items of a raw output
array, in output order then content order. -/
def flattenedContents (out : List JsVal) : List JsVal :=
  (out.filter (fun v => jsIsStr (jsGetD v "type") "message")).flatMap contentsOfRaw

/-- Well-formedness of a raw output array: no null/undefined output item
and no null/undefined flattened content item — exactly the values on which
the raw extractor's property accesses would throw. -/
def rawWellFormed (out : List JsVal) : Bool :=
  out.all (fun v => !isNullB v) && (flattenedContents out).all (fun v => !isNullB v)

/-- The texts the extractor harvests from validated output: the text fields
of the `output_text` content items of the `message` items, in output-array
order then content-array order. -/
def collectTexts (output : List GPT5OutputData) : List String :=
  (((output.filter GPT5OutputData.isMessage).flatMap GPT5OutputData.contentOf).filter
    (fun c => c.type = "output_text")).map (fun c => c.text)

/-- The retry-after hint carried by a caught error (none on non-HTTP
failures, which carry no hint). -/
def hintOf : CaughtError → Option Nat
  | .http e => e.retryAfterMs
  | .other _ => none

/-- The backoff schedule in the specification's language, for consecutive
failures starting at exponent `n` (= attempt - 1): a present, nonzero
retry-after hint is waited exactly; otherwise `b * 2 ^ (attempt - 1)`. -/
def scheduleSpec (b : Nat) : Nat → List CaughtError → List Nat
  | _, [] => []
  | n, e :: es =>
    (match hintOf e with
     | some h => if h = 0 then b * 2 ^ n else h
     | none => b * 2 ^ n) :: scheduleSpec b (n + 1) es

/-- A raw `message` output item with the given content array and otherwise
schema-conforming fields. -/
def mkMessageItem (id st role : String) (cs : List JsVal) : JsVal :=
  .obj [("id", .str id), ("type", .str "message"), ("status", .str st),
    ("content", .arr cs), ("role", .str role)]

theorem jsGet_ne_null (v : JsVal) (k : String) (h : isNullB v = false) :
    jsGet v k = .ok (jsGetD v k) := by
  cases v <;> simp_all [jsGet, jsGetD, isNullB]

theorem jsFilterType_eq (t : String) (l : List JsVal)
    (h : ∀ v ∈ l, isNullB v = false) :
    jsFilterType t l = .ok (l.filter (fun v => jsIsStr (jsGetD v "type") t)) := by
  induction l with
  | nil => rfl
  | cons v vs ih =>
    have hv := h v (List.mem_cons_self v vs)
    have hvs : ∀ x ∈ vs, isNullB x = false := fun x hx => h x (List.mem_cons_of_mem _ hx)
    simp only [jsFilterType, jsGet_ne_null v "type" hv, ih hvs, List.filter_cons]

theorem jsFlatContents_eq (l : List JsVal)
    (h : ∀ v ∈ l, isNullB v = false) :
    jsFlatContents l = .ok (l.flatMap contentsOfRaw) := by
  induction l with
  | nil => rfl
  | cons v vs ih =>
    have hv := h v (List.mem_cons_self v vs)
    have hvs : ∀ x ∈ vs, isNullB x = false := fun x hx => h x (List.mem_cons_of_mem _ hx)
    simp only [jsFlatContents, jsGet_ne_null v "content" hv, ih hvs, List.flatMap_cons]
    cases hc : jsGetD v "content" <;> simp [contentsOfRaw, hc]

theorem jsMapText_eq (l : List JsVal)
    (h : ∀ v ∈ l, isNullB v = false) :
    jsMapText l = .ok (l.map (fun c => jsGetD c "text")) := by
  induction l with
  | nil => rfl
  | cons v vs ih =>
    have hv := h v (List.mem_cons_self v vs)
    have hvs : ∀ x ∈ vs, isNullB x = false := fun x hx => h x (List.mem_cons_of_mem _ hx)
    simp [jsMapText, jsGet_ne_null v "text" hv, ih hvs]

theorem extractRaw_wf (out : List JsVal) (h : rawWellFormed out = true) :
    extractResponseTextRaw out =
      .ok (if (out.filter (fun v => jsIsStr (jsGetD v "type") "message")).length = 0 then
             "No response text available."
           else
             let joined := joinSep "\n\n" (((flattenedContents out).filter
               (fun c => jsIsStr (jsGetD c "type") "output_text")).map
               (fun c => jsToString (jsGetD c "text")))
             if joined = "" then "No response text available." else joined) := by
  simp only [rawWellFormed, Bool.and_eq_true, List.all_eq_true] at h
  obtain ⟨ha, hb⟩ := h
  have h1 : ∀ v ∈ out, isNullB v = false := fun v hv => by simpa using ha v hv
  have h2 : ∀ v ∈ flattenedContents out, isNullB v = false := fun v hv => by
    simpa using hb v hv
  have hmsgs : ∀ v ∈ out.filter (fun v => jsIsStr (jsGetD v "type") "message"),
      isNullB v = false := fun v hv => h1 v (List.mem_of_mem_filter hv)
  have h3 : ∀ v ∈ (flattenedContents out).filter
      (fun c => jsIsStr (jsGetD c "type") "output_text"), isNullB v = false :=
    fun v hv => h2 v (List.mem_of_mem_filter hv)
  have e1 := jsFilterType_eq "message" out h1
  have e2 := jsFlatContents_eq _ hmsgs
  have e3 := jsFilterType_eq "output_text" (flattenedContents out) h2
  have e4 := jsMapText_eq _ h3
  simp only [flattenedContents] at e3 e4 h2 h3 ⊢
  simp only [extractResponseTextRaw, e1, e2, e3, e4, List.map_map]
  by_cases hlen : (out.filter (fun v => jsIsStr (jsGetD v "type") "message")).length = 0 <;>
    simp [hlen, Function.comp_def]

theorem joinSep_ne_empty (ts : List String) (hx : ∃ x ∈ ts, x ≠ "") :
    joinSep "\n\n" ts ≠ "" := by
  match ts, hx with
  | [t], ⟨x, hxm, hxne⟩ =>
    have hxt : x = t := by simpa using hxm
    subst hxt
    simpa [joinSep] using hxne
  | t :: t2 :: ts, _ =>
    intro hc
    have hlen := congrArg String.length hc
    simp only [joinSep, String.length_append] at hlen
    have h2 : ("\n\n" : String).length = 2 := rfl
    have h0 : ("" : String).length = 0 := rfl
    omega

theorem withRetryAux_append {α : Type} (es : List CaughtError) :
    ∀ (k : Nat) (rest : List (Except CaughtError α)) (r b : Nat),
      (∀ x ∈ es, retriableB x = true) → k + es.length ≤ r →
      withRetryAux (es.map .error ++ rest) k r b
        = (withRetryAux rest (k + es.length) r b).map
            (fun p => (p.1, scheduleSpec b k es ++ p.2)) := by
  induction es with
  | nil =>
    intro k rest r b _ _
    simp [scheduleSpec]
  | cons e es ih =>
    intro k rest r b hall hlen
    have he := hall e (List.mem_cons_self e es)
    have hes : ∀ x ∈ es, retriableB x = true := fun x hx => hall x (List.mem_cons_of_mem _ hx)
    have hlen' : k + 1 + es.length ≤ r := by
      simp only [List.length_cons] at hlen
      omega
    have hk : k + 1 ≤ r := by omega
    have hd : delayFor e (k + 1) b =
        (match hintOf e with
         | some h => if h = 0 then b * 2 ^ k else h
         | none => b * 2 ^ k) := by
      cases e with
      | http he' =>
        simp only [delayFor, hintOf, Nat.add_sub_cancel]
        cases he'.retryAfterMs with
        | none => rfl
        | some r' => by_cases h0 : r' = 0 <;> simp [h0]
      | other f => rfl
    simp only [List.map_cons, List.cons_append, withRetryAux, List.append_eq]
    rw [if_pos ⟨he, hk⟩, ih (k + 1) rest r b hes hlen']
    have hke : k + (e :: es).length = k + 1 + es.length := by
      simp only [List.length_cons]
      omega
    rw [hke]
    cases withRetryAux rest (k + 1 + es.length) r b with
    | none => simp
    | some p => simp [scheduleSpec, hd]

theorem encode_ne_null (o : GPT5OutputData) : isNullB (encodeOutput o) = false := by
  cases o <;> rfl

theorem encodeContent_ne_null (c : GPT5OutputContentData) :
    isNullB (encodeContent c) = false := rfl

theorem jsIsStr_encode_message (o : GPT5OutputData) :
    jsIsStr (jsGetD (encodeOutput o) "type") "message" = o.isMessage := by
  cases o <;> rfl

theorem contentsOfRaw_encode (id st : String) (cs : List GPT5OutputContentData)
    (role : String) :
    contentsOfRaw (encodeOutput (.message id st cs role)) = cs.map encodeContent := rfl

theorem jsIsStr_encodeContent (c : GPT5OutputContentData) (t : String) :
    jsIsStr (jsGetD (encodeContent c) "type") t = decide (c.type = t) := rfl

theorem text_encodeContent (c : GPT5OutputContentData) :
    jsToString (jsGetD (encodeContent c) "text") = c.text := rfl

theorem filter_message_encode (out : List GPT5OutputData) :
    (out.map encodeOutput).filter (fun v => jsIsStr (jsGetD v "type") "message")
      = (out.filter GPT5OutputData.isMessage).map encodeOutput := by
  induction out with
  | nil => rfl
  | cons o os ih =>
    simp only [List.map_cons, List.filter_cons, jsIsStr_encode_message o]
    cases hM : o.isMessage <;> simp [ih]

theorem flatMap_contents_encode (ms : List GPT5OutputData)
    (h : ∀ x ∈ ms, x.isMessage = true) :
    (ms.map encodeOutput).flatMap contentsOfRaw
      = (ms.flatMap GPT5OutputData.contentOf).map encodeContent := by
  induction ms with
  | nil => rfl
  | cons m ms ih =>
    have hm := h m (List.mem_cons_self m ms)
    have hms : ∀ x ∈ ms, x.isMessage = true := fun x hx => h x (List.mem_cons_of_mem _ hx)
    cases m with
    | message id st cs role =>
      simp [List.flatMap_cons, contentsOfRaw_encode, ih hms, GPT5OutputData.contentOf]
    | reasoning id summary => simp [GPT5OutputData.isMessage] at hm
    | webSearchCall id st => simp [GPT5OutputData.isMessage] at hm

theorem filter_ot_encode (cs : List GPT5OutputContentData) :
    (cs.map encodeContent).filter (fun v => jsIsStr (jsGetD v "type") "output_text")
      = (cs.filter (fun c => c.type = "output_text")).map encodeContent := by
  induction cs with
  | nil => rfl
  | cons c cs ih =>
    simp only [List.map_cons, List.filter_cons, jsIsStr_encodeContent c "output_text"]
    by_cases hc : c.type = "output_text" <;> simp [hc, ih]

theorem rawWF_encode (out : List GPT5OutputData) :
    rawWellFormed (out.map encodeOutput) = true := by
  simp only [rawWellFormed, Bool.and_eq_true, List.all_eq_true]
  constructor
  · intro v hv
    obtain ⟨o, _, rfl⟩ := List.mem_map.mp hv
    simp [encode_ne_null]
  · intro v hv
    rw [flattenedContents, filter_message_encode,
      flatMap_contents_encode _ (fun x hx => (List.mem_filter.mp hx).2)] at hv
    obtain ⟨c, _, rfl⟩ := List.mem_map.mp hv
    simp [encodeContent_ne_null]

/-- C4 (amended): the extractor is pure and total on every zod-validated
output sequence — it returns a string and never fails — and on such data the
raw best-effort extraction agrees with it and succeeds as well; absence of
text is the sentinel value, not an error. (The unrestricted claim is refuted
by `extract_raw_total_cex`: on a raw output array containing a null item the
raw extraction throws a TypeError.) -/
theorem extract_total_validated (out : List GPT5OutputData) :
    extractResponseTextRaw (out.map encodeOutput) = .ok (extractResponseText out) := by
  rw [extractRaw_wf _ (rawWF_encode out)]
  have hmsg : ∀ x ∈ out.filter GPT5OutputData.isMessage, x.isMessage = true :=
    fun x hx => (List.mem_filter.mp hx).2
  have e2 := flatMap_contents_encode _ hmsg
  have hfun : (fun v : JsVal => jsToString (jsGetD v "text")) ∘ encodeContent
      = fun c : GPT5OutputContentData => c.text := funext fun c => rfl
  simp only [flattenedContents, filter_message_encode, e2, filter_ot_encode,
    List.length_map, List.map_map, hfun, extractResponseText]

theorem jsIsStr_eq_true_iff (v : JsVal) (s : String) :
    jsIsStr v s = true ↔ v = .str s := by
  cases v <;> simp [jsIsStr]

theorem jsIsStr_eq_false_iff (v : JsVal) (s : String) :
    jsIsStr v s = false ↔ ¬v = .str s := by
  rw [← Bool.not_eq_true, not_iff_not, jsIsStr_eq_true_iff]

/-- A 429 failure classified as insufficient_quota. -/
def quotaErr : HttpErr :=
  { message := "OpenAI API error: quota", status := 429, body := .null,
    retryAfterMs := none, errorType := .str "insufficient_quota", errorCode := .null }

/-- A 401 authentication failure. -/
def authErr : HttpErr :=
  { message := "OpenAI API error: bad key", status := 401, body := .null,
    retryAfterMs := none, errorType := .null, errorCode := .null }

/-- A 503 transient failure without a retry-after hint. -/
def serverErr : HttpErr :=
  { message := "OpenAI API error: down", status := 503, body := .null,
    retryAfterMs := none, errorType := .null, errorCode := .null }

/-- A 429 failure with a 2000 ms retry-after hint. -/
def rateHint2000Err : HttpErr :=
  { message := "OpenAI API error: rate", status := 429, body := .null,
    retryAfterMs := some 2000, errorType := .null, errorCode := .null }

/-- A 429 failure whose retry-after hint is exactly 0 ms. -/
def rateHint0Err : HttpErr :=
  { message := "OpenAI API error: rate", status := 429, body := .null,
    retryAfterMs := some 0, errorType := .null, errorCode := .null }

/-- A 404 failure (non-retriable, rendered generically). -/
def notFoundErr : HttpErr :=
  { message := "OpenAI API error: nf", status := 404, body := .null,
    retryAfterMs := none, errorType := .null, errorCode := .null }

/-- A failure that is an Error instance without a status property: rethrown
unclassified by the classifier. -/
def plainFailure : SdkFailure :=
  { isErrorInstance := true, hasStatusProp := false, status := none,
    respData := .null, errField := .null, topType := .null, topCode := .null,
    retryAfterHeader := none, message := "boom" }

/-- A transport-level failure: an Error instance whose status property is
present but undefined, with no vendor fields. -/
def transportFailure : SdkFailure :=
  { isErrorInstance := true, hasStatusProp := true, status := none,
    respData := .null, errField := .null, topType := .null, topCode := .null,
    retryAfterHeader := none, message := "socket hang up" }

/-- C1: inside `withRetry`, a retry is attempted only for a classified
`HttpError` whose vendor type and code are both not "insufficient_quota" and
whose status is 429 or in [500, 599]; quota failures are re-raised with zero
retries regardless of status, and every other non-retriable failure is
re-raised immediately without consuming a retry (and, when the budget
allows, a retriable failure does trigger exactly one further call). -/
theorem retry_eligibility (e : CaughtError) (r b : Nat) :
    (retriableB e = true ↔
      ∃ h, e = .http h ∧
        ¬h.errorType = JsVal.str "insufficient_quota" ∧
        ¬h.errorCode = JsVal.str "insufficient_quota" ∧
        (h.status = 429 ∨ (500 ≤ h.status ∧ h.status ≤ 599))) ∧
    (∀ h, e = .http h →
      (h.errorType = JsVal.str "insufficient_quota" ∨
        h.errorCode = JsVal.str "insufficient_quota") →
      ∀ rest : List (Except CaughtError Nat),
        withRetry (.error e :: rest) r b = some (.error e, [])) ∧
    (retriableB e = false →
      ∀ rest : List (Except CaughtError Nat),
        withRetry (.error e :: rest) r b = some (.error e, [])) ∧
    (retriableB e = true → 1 ≤ r → ∀ (v : Nat) (rest : List (Except CaughtError Nat)),
      withRetry (.error e :: .ok v :: rest) r b = some (.ok v, [delayFor e 1 b])) := by
  refine ⟨?_, ?_, ?_, ?_⟩
  · cases e with
    | http h =>
      simp [retriableB, isQuotaError, jsIsStr_eq_false_iff, Bool.and_eq_true,
        Bool.or_eq_true, Bool.not_eq_true', decide_eq_true_eq, and_assoc]
    | other f => simp [retriableB]
  · intro h heq hq rest
    subst heq
    have hqb : isQuotaError h = true := by
      rcases hq with hq | hq <;> simp [isQuotaError, jsIsStr_eq_true_iff, hq]
    simp [withRetry, withRetryAux, retriableB, hqb]
  · intro hrf rest
    simp [withRetry, withRetryAux, hrf]
  · intro hrt hr v rest
    simp [withRetry, withRetryAux, hrt, hr]

/-- Witness for C1 at concrete failures: a quota error and a 401 error are
re-raised with no retry and no backoff wait; a 503 error with one retry
available leads to a second call that succeeds after one 300 ms wait. -/
theorem retry_eligibility_witness :
    withRetry ([Except.error (CaughtError.http quotaErr)] : List (Except CaughtError Nat)) 2 300
      = some (.error (.http quotaErr), []) ∧
    withRetry ([Except.error (CaughtError.http authErr)] : List (Except CaughtError Nat)) 2 300
      = some (.error (.http authErr), []) ∧
    withRetry [Except.error (CaughtError.http serverErr), Except.ok (7 : Nat)] 2 300
      = some (.ok 7, [300]) :=
  ⟨(retry_eligibility (.http quotaErr) 2 300).2.1 quotaErr rfl (Or.inl rfl) [],
   (retry_eligibility (.http authErr) 2 300).2.2.1 rfl [],
   (retry_eligibility (.http serverErr) 2 300).2.2.2 rfl (by decide) 7 []⟩

/-- Counterexample to C2 as stated: for a retriable 429 failure whose
retry-after hint is present and equal to 0 ms, the engine does not wait the
hint (0 ms) — it waits the exponential default of 300 ms, because the hint
is selected by truthiness. -/
theorem retry_backoff_hint_cex :
    hintOf (.http rateHint0Err) = some 0 ∧
    withRetry [Except.error (CaughtError.http rateHint0Err), Except.ok (7 : Nat)] 2 300
      = some (.ok 7, [300]) ∧
    (300 : Nat) ≠ 0 :=
  ⟨rfl, rfl, by decide⟩

/-- C2 (amended): for every retriable failure at attempt n (starting at 1),
the engine waits exactly the retry-after hint when the hint is present and
nonzero, and otherwise waits baseDelay × 2^(n-1) (`scheduleSpec` states this
rule); and after `retries` exhausted retry attempts the last failure
propagates unchanged. -/
theorem retry_backoff_schedule (es : List CaughtError) (r b : Nat)
    (hall : ∀ x ∈ es, retriableB x = true) :
    (∀ v : Nat, es.length ≤ r →
      withRetry (es.map .error ++ [Except.ok v]) r b
        = some (.ok v, scheduleSpec b 0 es)) ∧
    (∀ e : CaughtError, retriableB e = true → es.length = r →
      withRetry (es.map .error ++ [(Except.error e : Except CaughtError Nat)]) r b
        = some (.error e, scheduleSpec b 0 es)) := by
  constructor
  · intro v hlen
    rw [withRetry, withRetryAux_append es 0 _ r b hall (by omega)]
    simp [withRetryAux]
  · intro e hre hlen
    rw [withRetry, withRetryAux_append es 0 _ r b hall (by omega)]
    simp [withRetryAux]
    intro _
    omega

/-- Witness for C2 at a concrete run (retries = 2, base delay = 300): a 503
failure without a hint waits 300 ms (= 300 × 2^0), a 429 failure with a
2000 ms hint waits exactly 2000 ms, and with the budget exhausted a third
failure propagates unchanged. -/
theorem retry_backoff_schedule_witness :
    withRetry [Except.error (CaughtError.http serverErr),
        Except.error (CaughtError.http rateHint2000Err), Except.ok (9 : Nat)] 2 300
      = some (.ok 9, [300, 2000]) ∧
    withRetry ([Except.error (CaughtError.http serverErr),
        Except.error (CaughtError.http rateHint2000Err),
        Except.error (CaughtError.http serverErr)] : List (Except CaughtError Nat)) 2 300
      = some (.error (.http serverErr), [300, 2000]) :=
  ⟨(retry_backoff_schedule [.http serverErr, .http rateHint2000Err] 2 300
      (by decide)).1 9 (by decide),
   (retry_backoff_schedule [.http serverErr, .http rateHint2000Err] 2 300
      (by decide)).2 (.http serverErr) rfl rfl⟩

/-- C10: for a retriable failure whose retry-after hint is exactly 0 ms, the
engine ignores the hint — the backoff at attempt n is the exponential
default b × 2^(n-1) — because line 106 selects the hint by truthiness, not
by presence. -/
theorem retry_hint_zero_exponential (h : HttpErr) (r b v : Nat)
    (rest : List (Except CaughtError Nat))
    (hretr : retriableB (.http h) = true) (hhint : h.retryAfterMs = some 0)
    (hr : 1 ≤ r) :
    (∀ n, delayFor (.http h) n b = b * 2 ^ (n - 1)) ∧
    withRetry (.error (.http h) :: .ok v :: rest) r b = some (.ok v, [b * 2 ^ 0]) := by
  constructor
  · intro n
    simp [delayFor, hhint]
  · simp [withRetry, withRetryAux, hretr, hr, delayFor, hhint]

/-- Witness for C10: the concrete 429 failure with a 0 ms hint waits 300 ms
(the exponential default at attempt 1), not 0 ms. -/
theorem retry_hint_zero_exponential_witness :
    delayFor (.http rateHint0Err) 1 300 = 300 ∧
    withRetry [Except.error (CaughtError.http rateHint0Err), Except.ok (5 : Nat)] 2 300
      = some (.ok 5, [300]) :=
  ⟨(retry_hint_zero_exponential rateHint0Err 2 300 5 [] rfl rfl (by decide)).1 1,
   (retry_hint_zero_exponential rateHint0Err 2 300 5 [] rfl rfl (by decide)).2⟩

/-- C3: on any terminal failure the tool handler returns a normal
(non-error) textual reply carrying the classifier's rendered message — the
billing message for insufficient_quota (checked first), the rate-limited
message (with the retry-after seconds when a nonzero hint is known) for
status 429, the authentication message for 401, the temporary-unavailability
message for status ≥ 500, and a generic message otherwise — never a hard
failure. -/
theorem terminal_failure_reply (c : CaughtError) :
    (handleToolFailure c).isError = false ∧
    (∀ h, c = .http h → isQuotaError h = true →
      (handleToolFailure c).text
        = "Insufficient OpenAI credits. You have exceeded your current quota. Please check your OpenAI plan and billing details at https://platform.openai.com/account/billing") ∧
    (∀ h, c = .http h → isQuotaError h = false → h.status = 429 →
      (handleToolFailure c).text = "Rate limited. " ++
        (match h.retryAfterMs with
         | some ms =>
           if ms ≠ 0 then "Please retry after " ++ toString (ms / 1000) ++ " seconds."
           else "Please try again later."
         | none => "Please try again later.")) ∧
    (∀ h, c = .http h → isQuotaError h = false → h.status = 401 →
      (handleToolFailure c).text
        = "Authentication failed. Please check your OPENAI_API_KEY.") ∧
    (∀ h, c = .http h → isQuotaError h = false → 500 ≤ h.status →
      (handleToolFailure c).text
        = "OpenAI service is temporarily unavailable. Please try again later.") ∧
    (∀ h, c = .http h → isQuotaError h = false → h.status ≠ 429 → h.status ≠ 401 →
      h.status < 500 →
      (handleToolFailure c).text = "Error (" ++ toString h.status ++ "): " ++ h.message) ∧
    (∀ f, c = .other f →
      (handleToolFailure c).text
        = "Error: " ++ (if f.isErrorInstance then f.message else "Unknown error occurred")) := by
  refine ⟨rfl, ?_, ?_, ?_, ?_, ?_, ?_⟩
  · intro h heq hq
    subst heq
    simp [handleToolFailure, renderErrorText, hq]
  · intro h heq hq hst
    subst heq
    simp [handleToolFailure, renderErrorText, hq, hst]
  · intro h heq hq hst
    subst heq
    simp [handleToolFailure, renderErrorText, hq, hst]
  · intro h heq hq hst
    subst heq
    have h429 : (h.status == 429) = false := by
      simp only [beq_eq_false_iff_ne, ne_eq]
      omega
    have h401 : (h.status == 401) = false := by
      simp only [beq_eq_false_iff_ne, ne_eq]
      omega
    simp [handleToolFailure, renderErrorText, hq, h429, h401, hst]
  · intro h heq hq hst429 hst401 hstlt
    subst heq
    have h429 : (h.status == 429) = false := by
      simp only [beq_eq_false_iff_ne, ne_eq]
      omega
    have h401 : (h.status == 401) = false := by
      simp only [beq_eq_false_iff_ne, ne_eq]
      omega
    have h500 : ¬(500 ≤ h.status) := by omega
    simp [handleToolFailure, renderErrorText, hq, h429, h401, h500]
  · intro f heq
    subst heq
    rfl

/-- Witness for C3 at concrete terminal failures, one per rendering case. -/
theorem terminal_failure_reply_witness :
    (handleToolFailure (.http quotaErr)).isError = false ∧
    (handleToolFailure (.http quotaErr)).text
      = "Insufficient OpenAI credits. You have exceeded your current quota. Please check your OpenAI plan and billing details at https://platform.openai.com/account/billing" ∧
    (handleToolFailure (.http rateHint2000Err)).text
      = "Rate limited. Please retry after 2 seconds." ∧
    (handleToolFailure (.http authErr)).text
      = "Authentication failed. Please check your OPENAI_API_KEY." ∧
    (handleToolFailure (.http serverErr)).text
      = "OpenAI service is temporarily unavailable. Please try again later." ∧
    (handleToolFailure (.http notFoundErr)).text
      = "Error (404): OpenAI API error: nf" ∧
    (handleToolFailure (.other plainFailure)).text = "Error: boom" :=
  ⟨(terminal_failure_reply (.http quotaErr)).1,
   (terminal_failure_reply (.http quotaErr)).2.1 quotaErr rfl rfl,
   (terminal_failure_reply (.http rateHint2000Err)).2.2.1 rateHint2000Err rfl rfl rfl,
   (terminal_failure_reply (.http authErr)).2.2.2.1 authErr rfl rfl rfl,
   (terminal_failure_reply (.http serverErr)).2.2.2.2.1 serverErr rfl rfl (by decide),
   (terminal_failure_reply (.http notFoundErr)).2.2.2.2.2.1 notFoundErr rfl rfl
     (by decide) (by decide) (by decide),
   (terminal_failure_reply (.other plainFailure)).2.2.2.2.2.2 plainFailure rfl⟩

/-- C6 (amended): a remote-call failure that is an Error carrying a status
property with no status value and no recognized vendor fields is classified
with status defaulted to 500 and is retriable as a transient failure; when
terminal it is rendered with the temporary-unavailability message (the
generic rendering applies only to statuses outside the special cases — see
`classifier_default_status_cex`). -/
theorem classifier_default_status (f : SdkFailure)
    (hinst : f.isErrorInstance = true) (hprop : f.hasStatusProp = true)
    (hstat : f.status = none) (hrd : f.respData = .null) (hef : f.errField = .null)
    (htt : f.topType = .null) (htc : f.topCode = .null) :
    ∃ e, classifyFailure f = .http e ∧ e.status = 500 ∧
      retriableB (.http e) = true ∧
      renderErrorText (.http e)
        = "OpenAI service is temporarily unavailable. Please try again later." := by
  have hcf : classifyFailure f = .http
      { message := "OpenAI API error: " ++ f.message
        status := 500
        body := .null
        retryAfterMs := match f.retryAfterHeader with
          | some s => if s = "" then none else (parseIntNat s).map (fun n => n * 1000)
          | none => none
        errorType := .null
        errorCode := .null } := by
    simp [classifyFailure, hinst, hprop, hstat, hrd, hef, htt, htc, jsOr, jsTruthy, jsGetD]
  exact ⟨_, hcf, rfl, rfl, rfl⟩

/-- Counterexample to C6's rendering clause: the transport-level failure
(status property present but valueless, no vendor fields) is classified as
status 500 and retriable, but its terminal rendering is the fixed
temporary-unavailability message, not the generic "Error (500): ..." text
the claim calls for. -/
theorem classifier_default_status_cex :
    classifyFailure transportFailure = CaughtError.http
      { message := "OpenAI API error: socket hang up", status := 500, body := .null,
        retryAfterMs := none, errorType := .null, errorCode := .null } ∧
    retriableB (classifyFailure transportFailure) = true ∧
    renderErrorText (classifyFailure transportFailure)
      = "OpenAI service is temporarily unavailable. Please try again later." ∧
    renderErrorText (classifyFailure transportFailure)
      ≠ "Error (500): OpenAI API error: socket hang up" :=
  ⟨rfl, rfl, rfl, by decide⟩

/-- Witness for C6: the concrete transport-level failure is classified as a
retriable status-500 error rendered with the unavailability message. -/
theorem classifier_default_status_witness :
    retriableB (classifyFailure transportFailure) = true ∧
    renderErrorText (classifyFailure transportFailure)
      = "OpenAI service is temporarily unavailable. Please try again later." := by
  obtain ⟨e, he, -, hr, hm⟩ :=
    classifier_default_status transportFailure rfl rfl rfl rfl rfl rfl rfl
  rw [he]
  exact ⟨hr, hm⟩

/-- C8: the extractor returns the fixed sentinel "No response text
available." on every output sequence without `message` items, and on every
output sequence whose join of extracted texts is the empty string. -/
theorem extractor_sentinel (out : List GPT5OutputData) :
    (out.filter GPT5OutputData.isMessage = [] →
      extractResponseText out = "No response text available.") ∧
    (joinSep "\n\n" (collectTexts out) = "" →
      extractResponseText out = "No response text available.") := by
  constructor
  · intro h
    simp [extractResponseText, h]
  · intro h
    by_cases hm : (out.filter GPT5OutputData.isMessage).length = 0
    · simp [extractResponseText, hm]
    · simp only [extractResponseText, if_neg hm]
      rw [collectTexts] at h
      simp [h]

/-- Witness for C8: a reasoning-only output yields the sentinel, and so does
a message item with an empty content list (empty join). -/
theorem extractor_sentinel_witness :
    extractResponseText [GPT5OutputData.reasoning "r" []]
      = "No response text available." ∧
    extractResponseText [GPT5OutputData.message "m" "completed" [] "assistant"]
      = "No response text available." :=
  ⟨(extractor_sentinel [GPT5OutputData.reasoning "r" []]).1 rfl,
   (extractor_sentinel [GPT5OutputData.message "m" "completed" [] "assistant"]).2 rfl⟩

/-- Counterexample to C9 as stated: on a reasoning-only output sequence the
extractor's result is the sentinel, not the (empty) concatenation of the
`output_text` texts. -/
theorem extractor_concat_cex :
    extractResponseText [GPT5OutputData.reasoning "r2" []]
      = "No response text available." ∧
    joinSep "\n\n" (collectTexts [GPT5OutputData.reasoning "r2" []]) = "" ∧
    ("No response text available." : String) ≠ "" :=
  ⟨rfl, rfl, by decide⟩

/-- C9 (amended): whenever at least one `message` item is present and the
join is non-empty, the extractor's result is exactly the text fields of the
`output_text` content items inside `message` items joined with a blank line,
in output-array order then content-array order (`collectTexts` collects them
in that order); otherwise the sentinel is returned. In particular two
messages with single texts "A" and "B" yield "A\n\nB". -/
theorem extractor_concat (out : List GPT5OutputData)
    (hmsg : out.filter GPT5OutputData.isMessage ≠ [])
    (hjoin : joinSep "\n\n" (collectTexts out) ≠ "") :
    extractResponseText out = joinSep "\n\n" (collectTexts out) ∧
    extractResponseText
        [GPT5OutputData.message "m1" "completed" [⟨"output_text", "A"⟩] "assistant",
         GPT5OutputData.message "m2" "completed" [⟨"output_text", "B"⟩] "assistant"]
      = "A\n\nB" := by
  constructor
  · have hm : ¬(out.filter GPT5OutputData.isMessage).length = 0 := by
      intro h0
      exact hmsg (List.length_eq_zero.mp h0)
    simp only [extractResponseText, if_neg hm]
    rw [collectTexts] at hjoin
    simp [hjoin]
    rw [collectTexts]
  · rfl

/-- Witness for C9 at the two-message output ["A", "B"]. -/
theorem extractor_concat_witness :
    extractResponseText
        [GPT5OutputData.message "m1" "completed" [⟨"output_text", "A"⟩] "assistant",
         GPT5OutputData.message "m2" "completed" [⟨"output_text", "B"⟩] "assistant"]
      = "A\n\nB" :=
  (extractor_concat
    [GPT5OutputData.message "m1" "completed" [⟨"output_text", "A"⟩] "assistant",
     GPT5OutputData.message "m2" "completed" [⟨"output_text", "B"⟩] "assistant"]
    (fun h => List.cons_ne_nil _ _ h) (by decide)).2

/-- Counterexample to C4 as stated: on the raw output array [null] the
best-effort extraction throws a TypeError (the filter callback reads `.type`
of null) instead of returning a string. -/
theorem extract_raw_total_cex :
    extractResponseTextRaw [JsVal.null] = Except.error () := rfl

/-- A valid `output_text` content item with text "A". -/
def goodContentA : JsVal := .obj [("type", .str "output_text"), ("text", .str "A")]

/-- A content item of an unknown kind ("refusal"). -/
def unknownKindContent : JsVal := .obj [("type", .str "refusal"), ("refusal", .str "no")]

theorem reasoning_mkMessage (id st role : String) (cs : List JsVal) :
    GPT5ReasoningOutput (mkMessageItem id st role cs) = false := rfl

theorem websearch_mkMessage (id st role : String) (cs : List JsVal) :
    GPT5WebSearchOutput (mkMessageItem id st role cs) = false := rfl

theorem message_mkMessage (id st role : String) (cs : List JsVal) :
    GPT5MessageOutput (mkMessageItem id st role cs)
      = (jsIsStr (.str st) "completed" && cs.all GPT5OutputContent &&
          jsIsStr (.str role) "assistant") := rfl

theorem mkMessage_ne_null (id st role : String) (cs : List JsVal) :
    isNullB (mkMessageItem id st role cs) = false := rfl

theorem flattened_mkMessage (id st role : String) (cs : List JsVal) :
    flattenedContents [mkMessageItem id st role cs] = cs := by
  have ht : jsIsStr (jsGetD (mkMessageItem id st role cs) "type") "message" = true := rfl
  have hco : contentsOfRaw (mkMessageItem id st role cs) = cs := rfl
  simp [flattenedContents, List.filter_cons, ht, hco]

/-- Counterexample to C5 as stated: a `message` item that is valid in every
field except that its content mixes an `output_text` item with an item of
unknown kind is rejected by the schema (validation fails); without the
unknown item the same message is accepted. -/
theorem schema_unknown_content_cex :
    GPT5Output (mkMessageItem "m1" "completed" "assistant"
      [goodContentA, unknownKindContent]) = false ∧
    GPT5MessageOutput (mkMessageItem "m1" "completed" "assistant"
      [goodContentA, unknownKindContent]) = false ∧
    GPT5Output (mkMessageItem "m1" "completed" "assistant" [goodContentA]) = true ∧
    GPT5OutputContent unknownKindContent = false :=
  ⟨rfl, rfl, rfl, rfl⟩

/-- C5 (amended): the schema rejects every `message` item whose content list
contains an item of unknown kind (each content item must claim kind
`output_text`), so such responses reach the extractor only through the raw
fallback path; there the unknown content kinds contribute nothing — the
extraction equals the extraction with the unknown kinds removed. -/
theorem schema_unknown_content (id st role : String) (cs : List JsVal)
    (hmix : ∃ c ∈ cs, ∃ t, jsGetD c "type" = JsVal.str t ∧ t ≠ "output_text") :
    GPT5Output (mkMessageItem id st role cs) = false ∧
    (cs.all (fun c => !isNullB c) = true →
      extractResponseTextRaw [mkMessageItem id st role cs]
        = extractResponseTextRaw [mkMessageItem id st role
            (cs.filter (fun c => jsIsStr (jsGetD c "type") "output_text"))]) := by
  constructor
  · obtain ⟨c, hcm, t, hct, htne⟩ := hmix
    have hcf : GPT5OutputContent c = false := by
      cases c with
      | obj kvs =>
        have hl : (kvs.lookup "type").getD .null = .str t := hct
        simp [GPT5OutputContent, hl, jsIsStr, htne]
      | null => simp [jsGetD] at hct
      | bool b => simp [jsGetD] at hct
      | num n => simp [jsGetD] at hct
      | str s => simp [jsGetD] at hct
      | arr l => simp [jsGetD] at hct
    have hall : cs.all GPT5OutputContent = false := by
      rw [Bool.eq_false_iff]
      intro htrue
      exact absurd ((List.all_eq_true.mp htrue) c hcm) (by simp [hcf])
    simp [GPT5Output, message_mkMessage, reasoning_mkMessage, websearch_mkMessage, hall]
  · intro hnn
    have hnn' : ∀ x ∈ cs, (!isNullB x) = true := List.all_eq_true.mp hnn
    have hnn2 : (cs.filter (fun c => jsIsStr (jsGetD c "type") "output_text")).all
        (fun c => !isNullB c) = true :=
      List.all_eq_true.mpr (fun x hx => hnn' x (List.mem_of_mem_filter hx))
    have hwf1 : rawWellFormed [mkMessageItem id st role cs] = true := by
      simp only [rawWellFormed, flattened_mkMessage]
      simp [mkMessage_ne_null, hnn]
    have hwf2 : rawWellFormed [mkMessageItem id st role
        (cs.filter (fun c => jsIsStr (jsGetD c "type") "output_text"))] = true := by
      simp only [rawWellFormed, flattened_mkMessage]
      simp [mkMessage_ne_null, hnn2]
    rw [extractRaw_wf _ hwf1, extractRaw_wf _ hwf2]
    have ht1 : jsIsStr (jsGetD (mkMessageItem id st role cs) "type") "message" = true := rfl
    have ht2 : jsIsStr (jsGetD (mkMessageItem id st role
        (cs.filter (fun c => jsIsStr (jsGetD c "type") "output_text"))) "type")
        "message" = true := rfl
    simp [flattened_mkMessage, List.filter_cons, ht1, ht2, List.filter_filter,
      Bool.and_self]

/-- Witness for C5: the concrete mixed-content message is rejected by the
schema, and its raw extraction equals the raw extraction with the unknown
kind removed. -/
theorem schema_unknown_content_witness :
    GPT5Output (mkMessageItem "m1" "completed" "assistant"
      [goodContentA, unknownKindContent]) = false ∧
    extractResponseTextRaw [mkMessageItem "m1" "completed" "assistant"
        [goodContentA, unknownKindContent]]
      = extractResponseTextRaw [mkMessageItem "m1" "completed" "assistant"
          [goodContentA]] :=
  ⟨(schema_unknown_content "m1" "completed" "assistant"
      [goodContentA, unknownKindContent]
      ⟨unknownKindContent, List.Mem.tail _ (List.Mem.head _), "refusal", rfl, by decide⟩).1,
   (schema_unknown_content "m1" "completed" "assistant"
      [goodContentA, unknownKindContent]
      ⟨unknownKindContent, List.Mem.tail _ (List.Mem.head _), "refusal", rfl, by decide⟩).2
     rfl⟩

/-- A raw `message` item carrying one `output_text` content item "pong". -/
def goodMessageItem : JsVal :=
  mkMessageItem "m2" "completed" "assistant"
    [.obj [("type", .str "output_text"), ("text", .str "pong")]]

/-- A raw response whose output array is [null, goodMessageItem]. -/
def failingResponse : JsVal :=
  .obj [("id", .str "r1"), ("object", .str "response"), ("created_at", .num 1),
    ("status", .str "completed"), ("model", .str "gpt-5"),
    ("output", .arr [JsVal.null, goodMessageItem])]

/-- Counterexample to C7 as stated: this response fails schema validation
and its raw output array contains a `message` item with an `output_text`
content item ("pong"), yet the best-effort extraction does not yield that
text — it throws a TypeError on the null item, so the recoverable answer is
lost. -/
theorem raw_recovery_cex :
    GPT5Response failingResponse = false ∧
    jsGetD goodMessageItem "type" = JsVal.str "message" ∧
    contentsOfRaw goodMessageItem
      = [.obj [("type", .str "output_text"), ("text", .str "pong")]] ∧
    jsGetD (.obj [("type", .str "output_text"), ("text", .str "pong")]) "type"
      = JsVal.str "output_text" ∧
    jsGetD (.obj [("type", .str "output_text"), ("text", .str "pong")]) "text"
      = JsVal.str "pong" ∧
    extractResponseTextRaw [JsVal.null, goodMessageItem] = Except.error () :=
  ⟨rfl, rfl, rfl, rfl, rfl, rfl⟩

/-- C7 (amended): for every well-formed raw output array (no null output
item, no null flattened content item — the inputs on which the extractor's
property accesses cannot throw) that contains a `message` item with an
`output_text` content item carrying a nonempty text, the best-effort
fallback extraction succeeds and yields non-empty text. -/
theorem raw_recovery (out : List JsVal) (hwf : rawWellFormed out = true)
    (m : JsVal) (hm : m ∈ out) (hmty : jsGetD m "type" = JsVal.str "message")
    (c : JsVal) (hc : c ∈ contentsOfRaw m)
    (hcty : jsGetD c "type" = JsVal.str "output_text")
    (s : String) (hstxt : jsGetD c "text" = JsVal.str s) (hsne : s ≠ "") :
    ∃ t, extractResponseTextRaw out = Except.ok t ∧ t ≠ "" := by
  rw [extractRaw_wf out hwf]
  have hmf : m ∈ out.filter (fun v => jsIsStr (jsGetD v "type") "message") :=
    List.mem_filter.mpr ⟨hm, by simp [hmty, jsIsStr]⟩
  have hlen : ¬(out.filter (fun v => jsIsStr (jsGetD v "type") "message")).length = 0 := by
    intro h0
    rw [List.length_eq_zero] at h0
    rw [h0] at hmf
    exact absurd hmf (List.not_mem_nil m)
  have hcf : c ∈ flattenedContents out := by
    rw [flattenedContents]
    exact List.mem_flatMap.mpr ⟨m, hmf, hc⟩
  have hcof : c ∈ (flattenedContents out).filter
      (fun v => jsIsStr (jsGetD v "type") "output_text") :=
    List.mem_filter.mpr ⟨hcf, by simp [hcty, jsIsStr]⟩
  have hsmem : s ∈ ((flattenedContents out).filter
      (fun v => jsIsStr (jsGetD v "type") "output_text")).map
      (fun v => jsToString (jsGetD v "text")) :=
    List.mem_map.mpr ⟨c, hcof, by simp [hstxt, jsToString]⟩
  have hjoin := joinSep_ne_empty _ ⟨s, hsmem, hsne⟩
  refine ⟨_, ?_, hjoin⟩
  simp only [if_neg hlen]
  simp [hjoin]

/-- Witness for C7: on the singleton well-formed output [goodMessageItem]
the raw extraction succeeds with non-empty text. -/
theorem raw_recovery_witness :
    extractResponseTextRaw [goodMessageItem] = Except.ok "pong" ∧
    ("pong" : String) ≠ "" := by
  obtain ⟨t, ht, hne⟩ :=
    raw_recovery [goodMessageItem] rfl goodMessageItem (List.Mem.head _) rfl
      (.obj [("type", .str "output_text"), ("text", .str "pong")]) (List.Mem.head _)
      rfl "pong" rfl (by decide)
  have heq : t = "pong" := Except.ok.inj (ht.symm.trans rfl)
  exact ⟨heq ▸ ht, heq ▸ hne⟩
